import Mathlib

/-!
Verification development for the AgentCore-on-AWS demo backend.

The Python sources are shallowly embedded: each handler or method becomes a
Lean function over explicit state and explicit outcomes of the AWS SDK calls
it wraps (an SDK call that can raise is an `Except String` outcome, the
string being the exception message).  Generators become lists of the values
they yield, and `time.sleep` / `asyncio.sleep` calls become recorded delays.
-/

namespace Py

/-- A Python value, as far as the embedded code inspects one: JSON-style
dictionaries and lists plus the primitive scalars. -/
inductive Val where
  | vnull
  | vbool (b : Bool)
  | vint (n : Int)
  | vstr (s : String)
  | vlist (xs : List Val)
  | vdict (fields : List (String × Val))
deriving Repr

/-- Lookup of a key in an embedded Python dict (first binding wins,
mirroring the fact that the embedded literals never repeat a key). -/
def dictGet (v : Val) (key : String) : Option Val :=
  match v with
  | .vdict fields =>
    match fields.find? (fun f => f.1 = key) with
    | some f => some f.2
    | none => none
  | _ => none

/-- One hexadecimal digit, lowercase, as produced by `json.dumps` escapes. -/
def hexDig (n : Nat) : Char :=
  if n < 10 then Char.ofNat (48 + n) else Char.ofNat (87 + n)

/-- Four-digit lowercase hex rendering of `n % 65536`. -/
def hex4 (n : Nat) : String :=
  String.mk [hexDig (n / 4096 % 16), hexDig (n / 256 % 16), hexDig (n / 16 % 16), hexDig (n % 16)]

/-- A `\uXXXX` escape. -/
def uEsc (n : Nat) : String := "\\u" ++ hex4 n

/-- Escape of a single character inside a JSON string literal, as
`json.dumps` performs it; `ascii` is the `ensure_ascii` flag. -/
def escChar (ascii : Bool) (c : Char) : String :=
  if c = '"' then "\\\""
  else if c = '\\' then "\\\\"
  else if c = '\n' then "\\n"
  else if c = '\r' then "\\r"
  else if c = '\t' then "\\t"
  else if c.toNat = 8 then "\\b"
  else if c.toNat = 12 then "\\f"
  else if c.toNat < 32 then uEsc c.toNat
  else if ascii && decide (126 < c.toNat) then
    if c.toNat < 65536 then uEsc c.toNat
    else uEsc (55296 + (c.toNat - 65536) / 1024) ++ uEsc (56320 + (c.toNat - 65536) % 1024)
  else String.singleton c

/-- Escape of a whole string body. -/
def escStr (ascii : Bool) (s : String) : String :=
  String.join (s.data.map (escChar ascii))

mutual

/-- Embedding of `json.dumps` with default separators; `ascii` is the
`ensure_ascii` flag (`true` is Python's default). -/
def dumpsWith (ascii : Bool) : Val → String
  | .vnull => "null"
  | .vbool true => "true"
  | .vbool false => "false"
  | .vint n => toString n
  | .vstr s => "\"" ++ escStr ascii s ++ "\""
  | .vlist xs => "[" ++ dumpsElems ascii xs ++ "]"
  | .vdict fs => "\x7b" ++ dumpsFields ascii fs ++ "\x7d"

/-- Comma-separated rendering of JSON array elements. -/
def dumpsElems (ascii : Bool) : List Val → String
  | [] => ""
  | [x] => dumpsWith ascii x
  | x :: y :: xs => dumpsWith ascii x ++ ", " ++ dumpsElems ascii (y :: xs)

/-- Comma-separated rendering of JSON object members. -/
def dumpsFields (ascii : Bool) : List (String × Val) → String
  | [] => ""
  | [f] => "\"" ++ escStr ascii f.1 ++ "\": " ++ dumpsWith ascii f.2
  | f :: g :: fs => "\"" ++ escStr ascii f.1 ++ "\": " ++ dumpsWith ascii f.2 ++ ", " ++ dumpsFields ascii (g :: fs)

end

/-- `json.dumps(v)` with Python's defaults. -/
def dumps (v : Val) : String := dumpsWith true v

/-- Python's `str()` on the embedded values (used by `_send_event` for
non-dict, non-list data). -/
def pyStr : Val → String
  | .vnull => "None"
  | .vbool true => "True"
  | .vbool false => "False"
  | .vint n => toString n
  | .vstr s => s
  | .vlist xs => dumpsWith false (.vlist xs)
  | .vdict fs => dumpsWith false (.vdict fs)

/-- Characters stripped by Python's `str.strip()`: the `str.isspace()`
class, i.e. U+0009-U+000D, U+001C-U+001F, the space, U+0085, U+00A0,
U+1680, U+2000-U+200A, U+2028, U+2029, U+202F, U+205F and U+3000. -/
def isPySpace (c : Char) : Bool :=
  (9 ≤ c.toNat && c.toNat ≤ 13) ||
  (28 ≤ c.toNat && c.toNat ≤ 32) ||
  c.toNat = 133 || c.toNat = 160 || c.toNat = 5760 ||
  (8192 ≤ c.toNat && c.toNat ≤ 8202) ||
  c.toNat = 8232 || c.toNat = 8233 || c.toNat = 8239 || c.toNat = 8287 ||
  c.toNat = 12288

/-- Embedding of `str.strip()` on the character list of a string. -/
def stripChars (l : List Char) : List Char :=
  ((l.dropWhile isPySpace).reverse.dropWhile isPySpace).reverse

/-- Embedding of Python's `str.strip()`. -/
def pyStrip (s : String) : String := String.mk (stripChars s.data)

/-- Embedding of Python's `s.split('\n')` on character lists: splitting the
empty string yields one empty piece, and each newline separates pieces. -/
def splitNl : List Char → List (List Char)
  | [] => [[]]
  | c :: rest =>
    if c = '\n' then [] :: splitNl rest
    else
      match splitNl rest with
      | [] => [[c]]
      | l :: ls => (c :: l) :: ls

/-- Does `needle` occur at the start of `hay`? (Python `startswith`.) -/
def leadsWith : List Char → List Char → Bool
  | [], _ => true
  | _ :: _, [] => false
  | a :: as, b :: bs => a = b && leadsWith as bs

/-- Embedding of Python's substring test `needle in hay`. -/
def occursIn (needle hay : List Char) : Bool :=
  match hay with
  | [] => leadsWith needle []
  | _ :: rest => leadsWith needle hay || occursIn needle rest

/-- `needle in hay` on strings. -/
def strIn (needle hay : String) : Bool := occursIn needle.data hay.data

theorem splitNl_ne_nil (l : List Char) : splitNl l ≠ [] := by
  cases l with
  | nil => simp [splitNl]
  | cons c rest =>
    by_cases h : c = '\n'
    · simp [splitNl, h]
    · simp only [splitNl, if_neg h]
      cases splitNl rest <;> simp

theorem splitNl_length (l : List Char) :
    (splitNl l).length = 1 + l.count '\n' := by
  induction l with
  | nil => simp [splitNl]
  | cons c rest ih =>
    by_cases h : c = '\n'
    · subst h
      simp only [splitNl, if_pos rfl, List.length_cons, ih, List.count_cons]
      simp
      omega
    · cases hr : splitNl rest with
      | nil => exact absurd hr (splitNl_ne_nil rest)
      | cons p ps =>
        have := ih
        rw [hr] at this
        simp only [splitNl, if_neg h, hr]
        simp only [List.length_cons] at this ⊢
        rw [List.count_cons]
        simp [h]
        omega

theorem stripChars_eq_nil_iff (l : List Char) :
    stripChars l = [] ↔ ∀ c ∈ l, isPySpace c = true := by
  unfold stripChars
  constructor
  · intro h c hc
    have hrev : (l.dropWhile isPySpace).reverse.dropWhile isPySpace = [] := by
      have := congrArg List.reverse h
      simpa using this
    have hdrop : l.dropWhile isPySpace = [] ∨
        ∀ x ∈ (l.dropWhile isPySpace).reverse, isPySpace x = true := by
      right
      intro x hx
      rcases List.takeWhile_append_dropWhile (p := isPySpace)
        (l := (l.dropWhile isPySpace).reverse) ▸ hx with _
      have hsplit := List.takeWhile_append_dropWhile (p := isPySpace)
        (l := (l.dropWhile isPySpace).reverse)
      rw [hrev, List.append_nil] at hsplit
      rw [← hsplit] at hx
      exact List.mem_takeWhile_imp hx
    rcases hdrop with hnil | hall
    · -- every element of l is in the dropped-while part, hence whitespace
      have hsplit := List.takeWhile_append_dropWhile (p := isPySpace) (l := l)
      rw [hnil, List.append_nil] at hsplit
      rw [← hsplit] at hc
      exact List.mem_takeWhile_imp hc
    · rcases List.mem_append.mp
        ((List.takeWhile_append_dropWhile (p := isPySpace) (l := l)) ▸ hc) with htk | hdr
      · exact List.mem_takeWhile_imp htk
      · exact hall _ (List.mem_reverse.mpr hdr)
  · intro h
    have h1 : l.dropWhile isPySpace = [] := by
      rw [List.dropWhile_eq_nil_iff]
      intro x hx; exact h x hx
    simp [h1]

end Py

namespace Runtime

open Py

/-! ### Step 2 mock SSE stream (`step2_init_project_stream`) -/

/-- One yielded SSE chunk of an embedded generator: the milliseconds slept
immediately before the yield, and the JSON value serialized into the
`data:` line. -/
structure SSEEvent where
  delayMsBefore : Nat
  data : Val
deriving Repr

/-- The fixed script printed by the step-2 mock endpoint. -/
def step2OutputLines : List String :=
  [ "Initialized Python 3.13 project",
    "Created pyproject.toml",
    "Created uv.lock",
    "Created .venv directory",
    "",
    "Added dependencies:",
    "  - bedrock-agentcore",
    "  - strands-agents",
    "",
    "Project setup completed successfully!" ]

/-- Embedding of the `generate` coroutine of `step2_init_project_stream`:
the list of yielded events paired with the list of AWS SDK calls the
endpoint performs (it performs none; it is a mock).  Each line event sleeps
500 ms first; the final event carries `done`, a message and the joined
output. -/
def step2InitProjectStream : List SSEEvent × List String :=
  ( step2OutputLines.map (fun line =>
      ⟨500, .vdict [("line", .vstr line), ("done", .vbool false)]⟩)
    ++ [⟨0, .vdict [("done", .vbool true),
                    ("message", .vstr "项目初始化完成"),
                    ("output", .vstr (String.intercalate "\n" step2OutputLines))]⟩],
    [] )

/-- The raw strings the endpoint yields (SSE framing of each event). -/
def step2Chunks : List String :=
  step2InitProjectStream.1.map (fun e => "data: " ++ dumps e.data ++ "\n\n")

/-! ### Step 7: request validation and invocation -/

/-- `Step7InvokeRequest` (pydantic model).  `deployment_type` is `none`
when the client sent an explicit null; its pydantic default is
`some "code"`. -/
structure Step7InvokeRequest where
  session_id : String
  runtime_arn : String
  runtime_session_id : String
  prompt : String
  deployment_type : Option String
deriving Repr

/-- The `validate_prompt` field validator. -/
def validate_prompt (v : String) : Except String String :=
  if 10000 < v.length then .error "Prompt 长度不能超过 10000 字符"
  else if pyStrip v = "" then .error "Prompt 不能为空"
  else .ok v

/-- The `validate_runtime_session_id` field validator. -/
def validate_runtime_session_id (v : String) : Except String String :=
  if v.length < 33 then .error "Runtime Session ID 长度必须至少 33 个字符"
  else .ok v

/-- The `validate_deployment_type` field validator
(`v not in ["code", "container"]` raises). -/
def validate_deployment_type (v : Option String) : Except String (Option String) :=
  if v = some "code" ∨ v = some "container" then .ok v
  else .error "deployment_type 必须是 \"code\" 或 \"container\""

/-- Pydantic validation of a step-7 request: the request is rejected when
any field validator raises. -/
def step7Validate (r : Step7InvokeRequest) : Except String Unit :=
  match validate_prompt r.prompt with
  | .error e => .error e
  | .ok _ =>
    match validate_runtime_session_id r.runtime_session_id with
    | .error e => .error e
    | .ok _ =>
      match validate_deployment_type r.deployment_type with
      | .error e => .error e
      | .ok _ => .ok ()

/-- The keyword arguments of the `invoke_agent_runtime` SDK call. -/
structure InvokeArgs where
  agentRuntimeArn : String
  runtimeSessionId : String
  payload : String
  qualifier : String
deriving Repr

/-- What a handler hands back to FastAPI: a JSON value, or an
`HTTPException(status_code, detail)`. -/
inductive ApiResult where
  | ok (v : Val)
  | httpError (status : Nat) (detail : String)
deriving Repr

/-- Body of `step7_invoke_agent` on a validated request: builds the payload
by deployment type, calls `invoke_agent_runtime` (its outcome — including
the `json.loads` of the body — is `outcome`), and wraps the parsed
response.  `execTime` stands for the measured wall-clock string. -/
def step7_invoke_agent (r : Step7InvokeRequest) (outcome : Except String Val)
    (execTime : String) : InvokeArgs × ApiResult :=
  let payload :=
    if r.deployment_type = some "container" then
      dumps (.vdict [("input", .vdict [("prompt", .vstr r.prompt)])])
    else
      dumps (.vdict [("prompt", .vstr r.prompt)])
  let args : InvokeArgs := ⟨r.runtime_arn, r.runtime_session_id, payload, "DEFAULT"⟩
  match outcome with
  | .ok data =>
    (args, .ok (.vdict [("status", .vstr "success"),
                        ("response", data),
                        ("execution_time", .vstr execTime),
                        ("prompt", .vstr r.prompt),
                        ("deployment_type",
                          match r.deployment_type with
                          | some dt => .vstr dt
                          | none => .vnull)]))
  | .error e => (args, .httpError 500 ("调用失败: " ++ e))

/-- The whole `/step7-invoke` endpoint: validation first (a rejected
request produces a validation error and no SDK call — the first component
is `none`), then the handler. -/
def step7Endpoint (r : Step7InvokeRequest) (outcome : Except String Val)
    (execTime : String) : Option InvokeArgs × ApiResult :=
  match step7Validate r with
  | .error e => (none, .httpError 422 e)
  | .ok _ =>
    (some (step7_invoke_agent r outcome execTime).1,
     (step7_invoke_agent r outcome execTime).2)

/-! ### Step 8: cleanup -/

/-- `Step8CleanupRequest`. -/
structure Step8CleanupRequest where
  session_id : String
  runtime_id : String
deriving Repr

/-- The per-session deployment record, as far as step 8 reads it. -/
structure SessionData where
  s3_key : Option String
deriving Repr

/-- The SDK calls `step8_cleanup_runtime` can make. -/
inductive CleanupCall where
  | deleteAgentRuntime (runtime_id : String)
  | s3DeleteObject (key : String)
deriving Repr, DecidableEq

/-- `step8_cleanup_runtime`: delete the runtime (failure becomes an HTTP
500 and leaves `runtime_sessions` alone); on success, optionally delete
the S3 object (its outcome `s3Outcome` is swallowed) and drop the
session's entry from `runtime_sessions`. -/
def step8_cleanup_runtime (sessions : List (String × SessionData))
    (r : Step8CleanupRequest) (delOutcome : Except String Unit)
    (s3Outcome : Except String Unit) :
    List (String × SessionData) × ApiResult × List CleanupCall :=
  match delOutcome with
  | .error e =>
    (sessions, .httpError 500 ("删除失败: " ++ e), [.deleteAgentRuntime r.runtime_id])
  | .ok _ =>
    let success : ApiResult :=
      .ok (.vdict [("status", .vstr "success"),
                   ("message", .vstr "Runtime 已删除"),
                   ("runtime_id", .vstr r.runtime_id)])
    match sessions.find? (fun p => p.1 == r.session_id) with
    | none => (sessions, success, [.deleteAgentRuntime r.runtime_id])
    | some p =>
      (sessions.filter (fun q => q.1 != r.session_id), success,
       match p.2.s3_key with
       | some k =>
         -- the delete_object outcome is caught and only logged
         match s3Outcome with
         | _ => [.deleteAgentRuntime r.runtime_id, .s3DeleteObject k]
       | none => [.deleteAgentRuntime r.runtime_id])

/-! ### Step 5: deploy stream -/

/-- The final SSE value the deploy stream yields when any wrapped call
raises. -/
def deployError (e : String) : Py.Val :=
  .vdict [("done", .vbool true), ("error", .vstr ("部署失败: " ++ e))]

/-- The `generate` coroutine of `step5_deploy_runtime_stream`: check the
prepared package, upload it to S3, create the runtime, recording the
session on success; the outcomes of the S3 upload and of
`create_agent_runtime` (ARN and id on success) are oracles, and any
exception is caught and yielded as a final `done:true` error event.
Returns the yielded values and the updated `runtime_sessions`. -/
def step5_deploy_stream (sessions : List (String × SessionData))
    (session_id agent_name packagePath bucket : String) (packageExists : Bool)
    (upload : Except String Unit) (create : Except String (String × String)) :
    List Py.Val × List (String × SessionData) :=
  let s3_key := agent_name ++ "/deployment_package.zip"
  if packageExists = false then
    ([.vdict [("done", .vbool true),
              ("error", .vstr ("部署包不存在: " ++ packagePath))]], sessions)
  else
    let uploadMsg : Py.Val :=
      .vdict [("line", .vstr ("正在上传到 S3: " ++ bucket ++ "/" ++ s3_key ++ "...")),
              ("done", .vbool false)]
    match upload with
    | .error e => ([uploadMsg, deployError e], sessions)
    | .ok _ =>
      let uploadDone : Py.Val :=
        .vdict [("line", .vstr ("✓ S3 上传完成: s3://" ++ bucket ++ "/" ++ s3_key)),
                ("done", .vbool false)]
      let createMsg : Py.Val :=
        .vdict [("line", .vstr ("\n正在创建 AgentCore Runtime: " ++ agent_name ++ "...")),
                ("done", .vbool false)]
      match create with
      | .error e => ([uploadMsg, uploadDone, createMsg, deployError e], sessions)
      | .ok (runtime_arn, runtime_id) =>
        ([uploadMsg, uploadDone, createMsg,
          .vdict [("line", .vstr ("✓ Runtime 创建成功!\n\nRuntime ARN: " ++ runtime_arn ++
                     "\nRuntime ID: " ++ runtime_id)),
                  ("done", .vbool false)],
          .vdict [("done", .vbool true), ("status", .vstr "success"),
                  ("runtime_arn", .vstr runtime_arn), ("runtime_id", .vstr runtime_id),
                  ("runtime_version", .vstr "1"), ("agent_name", .vstr agent_name),
                  ("message", .vstr "Runtime 部署成功！")]],
         sessions.filter (fun q => q.1 != session_id) ++ [(session_id, ⟨some s3_key⟩)])

/-! ### Step 6: status check -/

/-- The fields of a `get_agent_runtime` response that step 6 reads. -/
structure RuntimeStatusResponse where
  status : String
  agentRuntimeArn : String
  agentRuntimeId : String
  createdAt : String
  updatedAt : String
deriving Repr

/-- `step6_check_status`: reshape the SDK response, or surface the
exception message inside an HTTP 500 detail. -/
def step6_check_status (outcome : Except String RuntimeStatusResponse) : ApiResult :=
  match outcome with
  | .ok resp =>
    .ok (.vdict [("status", .vstr "success"),
                 ("runtime_status", .vstr resp.status),
                 ("details", .vdict [("agentRuntimeArn", .vstr resp.agentRuntimeArn),
                                     ("agentRuntimeId", .vstr resp.agentRuntimeId),
                                     ("status", .vstr resp.status),
                                     ("createdAt", .vstr resp.createdAt),
                                     ("updatedAt", .vstr resp.updatedAt)])])
  | .error e => .httpError 500 ("查询失败: " ++ e)

end Runtime

namespace Ops

open Py

/-- `execute_agentcore_code` (agentcore_code_interpreter.py): the combined
outcome of starting a session and executing the code is `outcome`
(session id and output text on success). -/
def execute_agentcore_code (outcome : Except String (String × String)) : Val :=
  match outcome with
  | .ok (session_id, output_text) =>
    .vdict [("success", .vbool true),
            ("output", .vstr output_text),
            ("session_id", .vstr session_id)]
  | .error e =>
    .vdict [("success", .vbool false), ("error", .vstr e)]

/-- `AgentCoreMemoryAPI.delete_memory`: wrap the `MemoryClient.delete_memory`
outcome; note the failure envelope keys its text under "message". -/
def delete_memory (memory_id : String) (outcome : Except String Unit) : Val :=
  match outcome with
  | .ok _ =>
    .vdict [("success", .vbool true),
            ("message", .vstr ("Memory " ++ memory_id ++ " 删除成功"))]
  | .error e =>
    .vdict [("success", .vbool false),
            ("message", .vstr ("删除 Memory 失败: " ++ e))]

/-- `stop_agentcore_browser_endpoint` (app.py, representative of the
browser endpoints): return the wrapped call's result, or catch the
exception into a `status:error` dict. -/
def stop_agentcore_browser_endpoint (outcome : Except String Val) : Val :=
  match outcome with
  | .ok v => v
  | .error e => .vdict [("status", .vstr "error"), ("message", .vstr e)]

end Ops

namespace Mem

open Py

/-- Serialization `_send_event` applies to its data before framing:
`json.dumps(data, ensure_ascii=False)` for dicts and lists, `str(data)`
otherwise. -/
def sendEventData : Val → String
  | .vdict fs => dumpsWith false (.vdict fs)
  | .vlist xs => dumpsWith false (.vlist xs)
  | d => pyStr d

/-- `AgentCoreMemoryAPI._send_event`: the SSE frame — an `event:` line,
one `data: `-prefixed line per newline-split piece of the serialized data,
and a terminating blank line. -/
def _send_event (event_type : String) (data : Val) : String :=
  "event: " ++ event_type ++ "\n" ++
    String.intercalate "\n"
      ((splitNl (sendEventData data).data).map (fun l => "data: " ++ String.mk l)) ++
    "\n\n"

/-- Observable state of `AgentCoreMemoryAPI`: the manager fields hold the
memory id they were constructed over (`none` = Python `None`), the two
client fields just record presence. -/
structure MemApi where
  stm_manager : Option String
  ltm_manager : Option String
  stm_memory_id : Option String
  ltm_memory_id : Option String
  memory_client : Bool
  bedrock_runtime : Bool
deriving Repr

/-- The failure dict returned by every demo operation invoked before
initialization. -/
def notInitialized : Val :=
  .vdict [("success", .vbool false), ("message", .vstr "请先初始化 Memory Manager")]

/-- The AWS traffic a demo operation's post-guard body performs, and what
it returns; the demo-op embeddings take it as an oracle because C10 only
concerns the guard path. -/
structure DemoBody where
  result : Val
  calls : List String

/-- `demo_stm_step1`: guard on `stm_manager`, then the LLM call and STM
write (abstracted as `body`). -/
def demo_stm_step1 (api : MemApi) (body : DemoBody) : Val × List String :=
  if api.stm_manager = none then (notInitialized, [])
  else (body.result, body.calls)

/-- `demo_stm_step2`: guard on `stm_manager`. -/
def demo_stm_step2 (api : MemApi) (body : DemoBody) : Val × List String :=
  if api.stm_manager = none then (notInitialized, [])
  else (body.result, body.calls)

/-- `demo_ltm_step1`: guard on `ltm_manager`. -/
def demo_ltm_step1 (api : MemApi) (body : DemoBody) : Val × List String :=
  if api.ltm_manager = none then (notInitialized, [])
  else (body.result, body.calls)

/-- `demo_ltm_step2`: guard on `ltm_manager`. -/
def demo_ltm_step2 (api : MemApi) (body : DemoBody) : Val × List String :=
  if api.ltm_manager = none then (notInitialized, [])
  else (body.result, body.calls)

/-- `demo_combined`: guard on both managers. -/
def demo_combined (api : MemApi) (body : DemoBody) : Val × List String :=
  if api.stm_manager = none ∨ api.ltm_manager = none then (notInitialized, [])
  else (body.result, body.calls)

/-- One value yielded by a streaming demo generator. -/
inductive MemEvent where
  | elog (s : String)
  | eresult (v : Val)
deriving Repr

/-- What a streaming demo op's post-guard body yields and calls
(an oracle, for the same reason as `DemoBody`). -/
structure StreamBody where
  events : List MemEvent
  calls : List String

/-- The trailing events every streaming demo op yields when its manager is
missing: the error log line, then the failure result event. -/
def streamNotInitialized : List MemEvent :=
  [.elog "❌ 请先初始化 Memory Manager", .eresult notInitialized]

/-- `demo_stm_step1_stream`: two opening log lines, then the guard. -/
def demo_stm_step1_stream (api : MemApi) (body : StreamBody) :
    List MemEvent × List String :=
  let opening : List MemEvent := [.elog "🚀 开始 STM Demo - 步骤 1: 存储第一条对话", .elog ""]
  if api.stm_manager = none then (opening ++ streamNotInitialized, [])
  else (opening ++ body.events, body.calls)

/-- `demo_stm_step2_stream`. -/
def demo_stm_step2_stream (api : MemApi) (body : StreamBody) :
    List MemEvent × List String :=
  let opening : List MemEvent := [.elog "🚀 开始 STM Demo - 步骤 2: 基于历史对话回答", .elog ""]
  if api.stm_manager = none then (opening ++ streamNotInitialized, [])
  else (opening ++ body.events, body.calls)

/-- `demo_ltm_step1_stream`. -/
def demo_ltm_step1_stream (api : MemApi) (body : StreamBody) :
    List MemEvent × List String :=
  let opening : List MemEvent := [.elog "🚀 开始 LTM Demo - 步骤 1: 表达偏好", .elog ""]
  if api.ltm_manager = none then (opening ++ streamNotInitialized, [])
  else (opening ++ body.events, body.calls)

/-- `demo_ltm_step2_stream`. -/
def demo_ltm_step2_stream (api : MemApi) (body : StreamBody) :
    List MemEvent × List String :=
  let opening : List MemEvent := [.elog "🚀 开始 LTM Demo - 步骤 2: 新会话中检索记忆", .elog ""]
  if api.ltm_manager = none then (opening ++ streamNotInitialized, [])
  else (opening ++ body.events, body.calls)

/-- `demo_combined_stream`: guard on both managers. -/
def demo_combined_stream (api : MemApi) (body : StreamBody) :
    List MemEvent × List String :=
  let opening : List MemEvent := [.elog "🚀 开始 Combined Demo: STM + LTM 综合演示", .elog ""]
  if api.stm_manager = none ∨ api.ltm_manager = none then
    (opening ++ streamNotInitialized, [])
  else (opening ++ body.events, body.calls)

/-- The initialize failure dict. -/
def initFailed (e : String) : Val :=
  .vdict [("success", .vbool false), ("message", .vstr ("初始化失败: " ++ e))]

/-- `AgentCoreMemoryAPI.initialize`: pick up the supplied or remembered
memory ids, then in order construct the MemoryClient, the bedrock client,
the STM manager and the LTM manager (each construction's outcome is an
oracle); the first exception is caught and reported, leaving behind every
assignment already made. -/
def init_managers (api : MemApi) (stm_id ltm_id : Option String)
    (clientCtor bedrockCtor stmCtor ltmCtor : Except String Unit) :
    MemApi × Val :=
  let api1 :=
    { api with
      stm_memory_id := match stm_id with | some s => some s | none => api.stm_memory_id,
      ltm_memory_id := match ltm_id with | some s => some s | none => api.ltm_memory_id }
  if api1.stm_memory_id = none ∨ api1.ltm_memory_id = none then
    (api1, .vdict [("success", .vbool false),
                   ("message", .vstr "请先设置 STM_MEMORY_ID 和 LTM_MEMORY_ID 环境变量")])
  else
    match clientCtor with
    | .error e => (api1, initFailed e)
    | .ok _ =>
      let api2 := { api1 with memory_client := true }
      match bedrockCtor with
      | .error e => (api2, initFailed e)
      | .ok _ =>
        let api3 := { api2 with bedrock_runtime := true }
        match stmCtor with
        | .error e => (api3, initFailed e)
        | .ok _ =>
          let api4 := { api3 with stm_manager := api3.stm_memory_id }
          match ltmCtor with
          | .error e => (api4, initFailed e)
          | .ok _ =>
            let api5 := { api4 with ltm_manager := api4.ltm_memory_id }
            (api5, .vdict [("success", .vbool true),
                           ("message", .vstr "初始化成功！可以开始演示了。"),
                           ("stm_memory_id", .vstr (api5.stm_memory_id.getD "")),
                           ("ltm_memory_id", .vstr (api5.ltm_memory_id.getD ""))])

end Mem

namespace CM

/-- State of `ConnectionManager` (app.py).  WebSockets are identified by
naturals, sessions by strings.  `sessionConnections` and
`connectionSessions` embed the two Python dicts (`none` means the key is
absent); `sessionMessageQueues` is the lazily created per-session buffer
(absent key and empty list coincide, as the Python code only ever appends
after creating the entry). -/
structure State where
  active : List Nat
  messageQueue : List Py.Val
  sessionConnections : String → Option (Finset Nat)
  connectionSessions : Nat → Option String
  sessionMessageQueues : String → List Py.Val

/-- Fresh manager: no connections, no sessions, empty queues. -/
def initState : State :=
  ⟨[], [], fun _ => none, fun _ => none, fun _ => []⟩

/-- The queue cap applied after each append: `if len(q) > 1000: q = q[-1000:]`. -/
def truncate (q : List Py.Val) : List Py.Val :=
  if 1000 < q.length then q.drop (q.length - 1000) else q

/-- `associate_session`: add the socket to the session's set (creating it
when absent) and point the socket at the session. -/
def associate_session (st : State) (w : Nat) (s : String) : State :=
  let cur := (st.sessionConnections s).getD ∅
  { st with
    sessionConnections := Function.update st.sessionConnections s (some (insert w cur)),
    connectionSessions := Function.update st.connectionSessions w (some s) }

/-- `connect`: accept the socket, append it to `active_connections`, and
associate it when a session id was supplied. -/
def connect (st : State) (w : Nat) (sid : Option String) : State :=
  let st1 := { st with active := st.active ++ [w] }
  match sid with
  | some s => associate_session st1 w s
  | none => st1

/-- `disconnect`: drop the socket from `active_connections`, remove it from
its session's set, delete the set when it became empty, and forget the
socket's session. -/
def disconnect (st : State) (w : Nat) : State :=
  match st.connectionSessions w with
  | none => { st with active := st.active.erase w }
  | some s =>
    match st.sessionConnections s with
    | none =>
      { st with
        active := st.active.erase w,
        connectionSessions := Function.update st.connectionSessions w none }
    | some ws =>
      { st with
        active := st.active.erase w,
        sessionConnections :=
          Function.update st.sessionConnections s
            (if ws.erase w = ∅ then none else some (ws.erase w)),
        connectionSessions := Function.update st.connectionSessions w none }

/-- `send_to_session`: when the session has no connections the message is
queued (with the 1000-entry cap); otherwise it is sent to every connection
of the session and the connections whose send raised (the `failing` set)
are disconnected afterwards.  Returns the new state and the list of
sockets a send was attempted on. -/
def send_to_session (st : State) (s : String) (data : Py.Val) (failing : Finset Nat) :
    State × List Nat :=
  match st.sessionConnections s with
  | none =>
    ({ st with
       sessionMessageQueues :=
         Function.update st.sessionMessageQueues s
           (truncate (st.sessionMessageQueues s ++ [data])) }, [])
  | some ws =>
    ((ws ∩ failing).sort (· ≤ ·) |>.foldl (fun acc w => disconnect acc w) st,
     ws.sort (· ≤ ·))

/-- `send_json`: with no active connections the message is queued into the
global `message_queue` (with the 1000-entry cap); otherwise it is sent to
every active connection (send errors are only printed). -/
def send_json (st : State) (data : Py.Val) : State × List Nat :=
  if st.active = [] then
    ({ st with messageQueue := truncate (st.messageQueue ++ [data]) }, [])
  else (st, st.active)

/-- One externally triggered manager operation. -/
inductive Op where
  | connect (w : Nat) (sid : Option String)
  | associate (w : Nat) (s : String)
  | disconnect (w : Nat)
  | sendToSession (s : String) (data : Py.Val) (failing : Finset Nat)
  | sendJson (data : Py.Val)

/-- Apply one operation to the manager state. -/
def applyOp (st : State) : Op → State
  | .connect w sid => connect st w sid
  | .associate w s => associate_session st w s
  | .disconnect w => disconnect st w
  | .sendToSession s data failing => (send_to_session st s data failing).1
  | .sendJson data => (send_json st data).1

/-- Run a sequence of operations from the fresh manager. -/
def run (ops : List Op) : State := ops.foldl applyOp initState

/-- The session-bookkeeping invariant: each socket's recorded session set
contains the socket, and no stored session set is empty. -/
def Inv (st : State) : Prop :=
  (∀ w s, st.connectionSessions w = some s →
    ∃ ws, st.sessionConnections s = some ws ∧ w ∈ ws) ∧
  (∀ s ws, st.sessionConnections s = some ws → ws.Nonempty)

theorem inv_initState : Inv initState := by
  constructor
  · intro w s h; simp [initState] at h
  · intro s ws h; simp [initState] at h

theorem inv_associate {st : State} (h : Inv st) (w : Nat) (s : String) :
    Inv (associate_session st w s) := by
  obtain ⟨h1, h2⟩ := h
  constructor
  · intro w' s' hw'
    simp only [associate_session, Function.update] at hw' ⊢
    by_cases hww : w' = w
    · subst hww
      simp at hw'
      subst hw'
      simp
    · simp [hww] at hw'
      by_cases hss : s' = s
      · subst hss
        obtain ⟨ws, hws, hmem⟩ := h1 w' s' hw'
        refine ⟨insert w ((st.sessionConnections s').getD ∅), by simp, ?_⟩
        rw [hws]
        simp [Finset.mem_insert, hmem]
      · simpa [hss] using h1 w' s' hw'
  · intro s' ws hws
    simp only [associate_session, Function.update] at hws
    by_cases hss : s' = s
    · subst hss
      simp at hws
      subst hws
      exact ⟨w, Finset.mem_insert_self w _⟩
    · simp [hss] at hws
      exact h2 s' ws hws

theorem inv_connect {st : State} (h : Inv st) (w : Nat) (sid : Option String) :
    Inv (connect st w sid) := by
  have hbase : Inv { st with active := st.active ++ [w] } := h
  cases sid with
  | none => exact hbase
  | some s => exact inv_associate hbase w s

theorem inv_disconnect {st : State} (h : Inv st) (w : Nat) :
    Inv (disconnect st w) := by
  obtain ⟨h1, h2⟩ := h
  unfold disconnect
  cases hcs : st.connectionSessions w with
  | none => exact ⟨fun w' s' hw' => h1 w' s' hw', h2⟩
  | some s =>
    dsimp only
    cases hsc : st.sessionConnections s with
    | none =>
      dsimp only
      constructor
      · intro w' s' hw'
        simp only [Function.update] at hw'
        by_cases hww : w' = w
        · subst hww; simp at hw'
        · simp [hww] at hw'
          exact h1 w' s' hw'
      · intro s' ws hws
        exact h2 s' ws hws
    | some ws =>
      dsimp only
      constructor
      · intro w' s' hw'
        simp only [Function.update] at hw' ⊢
        by_cases hww : w' = w
        · subst hww; simp at hw'
        · simp [hww] at hw'
          obtain ⟨ws₀, hws₀, hmem₀⟩ := h1 w' s' hw'
          by_cases hss : s' = s
          · subst hss
            rw [hsc] at hws₀
            injection hws₀ with hws₀
            subst hws₀
            have hmem' : w' ∈ ws.erase w := Finset.mem_erase.mpr ⟨hww, hmem₀⟩
            have hne : ¬ ws.erase w = ∅ := by
              intro hempty
              rw [hempty] at hmem'
              exact absurd hmem' (Finset.not_mem_empty w')
            refine ⟨ws.erase w, ?_, hmem'⟩
            simp [hne]
          · simp [hss]
            exact ⟨ws₀, hws₀, hmem₀⟩
      · intro s' ws' hws'
        simp only [Function.update] at hws'
        by_cases hss : s' = s
        · subst hss
          simp at hws'
          by_cases hne : ws.erase w = ∅
          · simp [hne] at hws'
          · simp [hne] at hws'
            subst hws'
            exact Finset.nonempty_iff_ne_empty.mpr hne
        · simp [hss] at hws'
          exact h2 s' ws' hws'

theorem inv_foldl_disconnect {st : State} (h : Inv st) (l : List Nat) :
    Inv (l.foldl (fun acc w => disconnect acc w) st) := by
  induction l generalizing st with
  | nil => exact h
  | cons w rest ih => exact ih (inv_disconnect h w)

theorem inv_send_to_session {st : State} (h : Inv st) (s : String) (data : Py.Val)
    (failing : Finset Nat) : Inv (send_to_session st s data failing).1 := by
  unfold send_to_session
  cases hsc : st.sessionConnections s with
  | none =>
    constructor
    · intro w' s' hw'; exact h.1 w' s' hw'
    · intro s' ws hws; exact h.2 s' ws hws
  | some ws => exact inv_foldl_disconnect h _

theorem inv_send_json {st : State} (h : Inv st) (data : Py.Val) :
    Inv (send_json st data).1 := by
  unfold send_json
  by_cases hact : st.active = []
  · simp only [hact, if_pos rfl]
    exact ⟨fun w' s' hw' => h.1 w' s' hw', h.2⟩
  · simp only [if_neg hact]
    exact h

theorem inv_applyOp {st : State} (h : Inv st) (op : Op) : Inv (applyOp st op) := by
  cases op with
  | connect w sid => exact inv_connect h w sid
  | associate w s => exact inv_associate h w s
  | disconnect w => exact inv_disconnect h w
  | sendToSession s data failing => exact inv_send_to_session h s data failing
  | sendJson data => exact inv_send_json h data

theorem inv_foldl {st : State} (h : Inv st) (ops : List Op) :
    Inv (ops.foldl applyOp st) := by
  induction ops generalizing st with
  | nil => exact h
  | cons op rest ih => exact ih (inv_applyOp h op)

end CM

namespace LLM

/-- The outcome the SDK hands one `converse_stream` attempt: the text
chunks delivered before the attempt's stream ends, and `err = some msg`
when the attempt raised an exception (after yielding `chunks`). -/
structure Attempt where
  chunks : List String
  err : Option String

/-- One value yielded by the `call_llm_stream` generator. -/
inductive Out where
  | chunk (s : String)
  | retryNotice (delay attempt : Nat)
  | errLine (s : String)
deriving Repr, DecidableEq

/-- The final error line yielded on a non-retried failure. -/
def errText (msg : String) : String := "\n❌ LLM 调用失败: " ++ msg ++ "\n"

/-- The warning line yielded before sleeping and retrying. -/
def warnText (delay attempt : Nat) : String :=
  "\n⚠️  Bedrock 暂时不可用，" ++ toString delay ++ "秒后重试 (尝试 " ++
    toString (attempt + 1) ++ "/3)...\n"

/-- `max_retries` of `call_llm_stream`. -/
def maxRetries : Nat := 3

/-- Is the exception message retryable? (`'serviceUnavailableException' in
error_msg or 'ThrottlingException' in error_msg`.) -/
def retryable (msg : String) : Bool :=
  Py.strIn "serviceUnavailableException" msg || Py.strIn "ThrottlingException" msg

/-- Result of running the generator: everything yielded, the seconds slept
between attempts, and how many `converse_stream` calls were made. -/
structure Run where
  outs : List Out
  sleeps : List Nat
  calls : Nat
deriving Repr, DecidableEq

/-- The `for attempt in range(max_retries)` loop of `call_llm_stream`.
`fuel` is the number of remaining loop iterations (kept equal to
`maxRetries - attempt`), `delay` the current `retry_delay`.  A successful
attempt yields its chunks and returns; a failed one either yields the
warning, sleeps and retries (when not the last attempt and the message is
retryable) or yields the single error line and returns. -/
def loopFrom (oracle : Nat → Attempt) : Nat → Nat → Nat → Run
  | 0, _, _ => ⟨[], [], 0⟩
  | fuel + 1, attempt, delay =>
    match (oracle attempt).err with
    | none => ⟨(oracle attempt).chunks.map Out.chunk, [], 1⟩
    | some e =>
      if attempt < maxRetries - 1 ∧ retryable e = true then
        ⟨(oracle attempt).chunks.map Out.chunk ++
           Out.retryNotice delay attempt :: (loopFrom oracle fuel (attempt + 1) (delay * 2)).outs,
         delay :: (loopFrom oracle fuel (attempt + 1) (delay * 2)).sleeps,
         (loopFrom oracle fuel (attempt + 1) (delay * 2)).calls + 1⟩
      else
        ⟨(oracle attempt).chunks.map Out.chunk ++ [Out.errLine (errText e)], [], 1⟩

/-- `call_llm_stream`, as a function of the SDK outcome of each attempt. -/
def call_llm_stream (oracle : Nat → Attempt) : Run :=
  loopFrom oracle maxRetries 0 2

/-- Is a yielded value the final error line? -/
def isErrLine : Out → Bool
  | .errLine _ => true
  | _ => false

end LLM

/-! ### Claim theorems -/

theorem countP_chunk_map (l : List String) :
    (l.map LLM.Out.chunk).countP LLM.isErrLine = 0 := by
  induction l with
  | nil => rfl
  | cons a t ih => simp [List.countP_cons, LLM.isErrLine, ih]

theorem countP_comp_chunk (l : List String) :
    List.countP (LLM.isErrLine ∘ LLM.Out.chunk) l = 0 := by
  induction l with
  | nil => rfl
  | cons a t ih => simp [List.countP_cons, Function.comp, LLM.isErrLine, ih]

/-- C1: `converse_stream` is attempted at most 3 times per
`call_llm_stream` run; attempt `i+1` happens only when attempt `i` was not
the last allowed one and raised a message containing
serviceUnavailableException or ThrottlingException; the sleeps are 2 s
then 4 s; and when the last attempt made fails the generator yields
exactly one error line, as its last output, carrying the exception
message. -/
theorem C1_llm_stream_retry (oracle : Nat → LLM.Attempt) :
    1 ≤ (LLM.call_llm_stream oracle).calls ∧
    (LLM.call_llm_stream oracle).calls ≤ 3 ∧
    (∀ i, i + 1 < (LLM.call_llm_stream oracle).calls →
      i < LLM.maxRetries - 1 ∧
      ∃ e, (oracle i).err = some e ∧ LLM.retryable e = true) ∧
    (LLM.call_llm_stream oracle).sleeps =
      [2, 4].take ((LLM.call_llm_stream oracle).calls - 1) ∧
    (∀ e, (oracle ((LLM.call_llm_stream oracle).calls - 1)).err = some e →
      (LLM.call_llm_stream oracle).outs.countP LLM.isErrLine = 1 ∧
      (LLM.call_llm_stream oracle).outs.getLast? =
        some (LLM.Out.errLine (LLM.errText e))) := by
  cases h0 : (oracle 0).err with
  | none =>
    have hrun : LLM.call_llm_stream oracle =
        ⟨(oracle 0).chunks.map LLM.Out.chunk, [], 1⟩ := by
      simp only [LLM.call_llm_stream, LLM.maxRetries, LLM.loopFrom, h0]
    rw [hrun]
    dsimp only
    refine ⟨by norm_num, by norm_num, ?_, rfl, ?_⟩
    · intro i hi
      exact absurd hi (by omega)
    · intro e he
      rw [show (1 : Nat) - 1 = 0 from rfl, h0] at he
      cases he
  | some e0 =>
    by_cases hr0 : LLM.retryable e0 = true
    · cases h1 : (oracle 1).err with
      | none =>
        have hrun : LLM.call_llm_stream oracle =
            ⟨(oracle 0).chunks.map LLM.Out.chunk ++
               LLM.Out.retryNotice 2 0 :: (oracle 1).chunks.map LLM.Out.chunk,
             [2], 2⟩ := by
          simp only [LLM.call_llm_stream, LLM.maxRetries, LLM.loopFrom, h0, h1, hr0]
          norm_num
        rw [hrun]
        dsimp only
        refine ⟨by norm_num, by norm_num, ?_, rfl, ?_⟩
        · intro i hi
          have hi0 : i = 0 := by omega
          subst hi0
          exact ⟨by norm_num [LLM.maxRetries], e0, h0, hr0⟩
        · intro e he
          rw [show (2 : Nat) - 1 = 1 from rfl, h1] at he
          cases he
      | some e1 =>
        by_cases hr1 : LLM.retryable e1 = true
        · cases h2 : (oracle 2).err with
          | none =>
            have hrun : LLM.call_llm_stream oracle =
                ⟨(oracle 0).chunks.map LLM.Out.chunk ++
                   LLM.Out.retryNotice 2 0 ::
                     ((oracle 1).chunks.map LLM.Out.chunk ++
                       LLM.Out.retryNotice 4 1 ::
                         (oracle 2).chunks.map LLM.Out.chunk),
                 [2, 4], 3⟩ := by
              simp only [LLM.call_llm_stream, LLM.maxRetries, LLM.loopFrom,
                h0, h1, h2, hr0, hr1]
              norm_num
            rw [hrun]
            dsimp only
            refine ⟨by norm_num, by norm_num, ?_, rfl, ?_⟩
            · intro i hi
              have hi1 : i = 0 ∨ i = 1 := by omega
              rcases hi1 with rfl | rfl
              · exact ⟨by norm_num [LLM.maxRetries], e0, h0, hr0⟩
              · exact ⟨by norm_num [LLM.maxRetries], e1, h1, hr1⟩
            · intro e he
              rw [show (3 : Nat) - 1 = 2 from rfl, h2] at he
              cases he
          | some e2 =>
            have hrun : LLM.call_llm_stream oracle =
                ⟨(oracle 0).chunks.map LLM.Out.chunk ++
                   LLM.Out.retryNotice 2 0 ::
                     ((oracle 1).chunks.map LLM.Out.chunk ++
                       LLM.Out.retryNotice 4 1 ::
                         ((oracle 2).chunks.map LLM.Out.chunk ++
                           [LLM.Out.errLine (LLM.errText e2)])),
                 [2, 4], 3⟩ := by
              simp only [LLM.call_llm_stream, LLM.maxRetries, LLM.loopFrom,
                h0, h1, h2, hr0, hr1]
              norm_num
            rw [hrun]
            dsimp only
            refine ⟨by norm_num, by norm_num, ?_, rfl, ?_⟩
            · intro i hi
              have hi1 : i = 0 ∨ i = 1 := by omega
              rcases hi1 with rfl | rfl
              · exact ⟨by norm_num [LLM.maxRetries], e0, h0, hr0⟩
              · exact ⟨by norm_num [LLM.maxRetries], e1, h1, hr1⟩
            · intro e he
              rw [show (3 : Nat) - 1 = 2 from rfl, h2] at he
              injection he with he
              subst he
              constructor
              · simp [List.countP_append, List.countP_cons, countP_comp_chunk,
                  LLM.isErrLine]
              · have hconcat :
                    (oracle 0).chunks.map LLM.Out.chunk ++
                      LLM.Out.retryNotice 2 0 ::
                        ((oracle 1).chunks.map LLM.Out.chunk ++
                          LLM.Out.retryNotice 4 1 ::
                            ((oracle 2).chunks.map LLM.Out.chunk ++
                              [LLM.Out.errLine (LLM.errText e2)])) =
                    ((oracle 0).chunks.map LLM.Out.chunk ++
                      LLM.Out.retryNotice 2 0 ::
                        ((oracle 1).chunks.map LLM.Out.chunk ++
                          LLM.Out.retryNotice 4 1 ::
                            (oracle 2).chunks.map LLM.Out.chunk)) ++
                      [LLM.Out.errLine (LLM.errText e2)] := by
                  simp
                rw [hconcat, List.getLast?_concat]
        · have hrun : LLM.call_llm_stream oracle =
              ⟨(oracle 0).chunks.map LLM.Out.chunk ++
                 LLM.Out.retryNotice 2 0 ::
                   ((oracle 1).chunks.map LLM.Out.chunk ++
                     [LLM.Out.errLine (LLM.errText e1)]),
               [2], 2⟩ := by
            simp only [LLM.call_llm_stream, LLM.maxRetries, LLM.loopFrom,
              h0, h1, hr0, hr1]
            norm_num
          rw [hrun]
          dsimp only
          refine ⟨by norm_num, by norm_num, ?_, rfl, ?_⟩
          · intro i hi
            have hi0 : i = 0 := by omega
            subst hi0
            exact ⟨by norm_num [LLM.maxRetries], e0, h0, hr0⟩
          · intro e he
            rw [show (2 : Nat) - 1 = 1 from rfl, h1] at he
            injection he with he
            subst he
            constructor
            · simp [List.countP_append, List.countP_cons, countP_comp_chunk,
                LLM.isErrLine]
            · have hconcat :
                  (oracle 0).chunks.map LLM.Out.chunk ++
                    LLM.Out.retryNotice 2 0 ::
                      ((oracle 1).chunks.map LLM.Out.chunk ++
                        [LLM.Out.errLine (LLM.errText e1)]) =
                  ((oracle 0).chunks.map LLM.Out.chunk ++
                    LLM.Out.retryNotice 2 0 ::
                      (oracle 1).chunks.map LLM.Out.chunk) ++
                    [LLM.Out.errLine (LLM.errText e1)] := by
                simp
              rw [hconcat, List.getLast?_concat]
    · have hrun : LLM.call_llm_stream oracle =
          ⟨(oracle 0).chunks.map LLM.Out.chunk ++
             [LLM.Out.errLine (LLM.errText e0)], [], 1⟩ := by
        simp only [LLM.call_llm_stream, LLM.maxRetries, LLM.loopFrom, h0, hr0]
        norm_num
      rw [hrun]
      dsimp only
      refine ⟨by norm_num, by norm_num, ?_, rfl, ?_⟩
      · intro i hi
        exact absurd hi (by omega)
      · intro e he
        rw [show (1 : Nat) - 1 = 0 from rfl, h0] at he
        injection he with he
        subst he
        constructor
        · simp [List.countP_append, List.countP_cons, countP_comp_chunk,
            LLM.isErrLine]
        · rw [List.getLast?_concat]

theorem send_to_session_queued {st : CM.State} {s : String} (data : Py.Val)
    (failing : Finset Nat) (hnone : st.sessionConnections s = none) :
    CM.send_to_session st s data failing =
      ({ st with
         sessionMessageQueues :=
           Function.update st.sessionMessageQueues s
             (CM.truncate (st.sessionMessageQueues s ++ [data])) }, []) := by
  unfold CM.send_to_session
  rw [hnone]

theorem send_json_queued {st : CM.State} (data : Py.Val) (hact : st.active = []) :
    CM.send_json st data =
      ({ st with messageQueue := CM.truncate (st.messageQueue ++ [data]) }, []) := by
  unfold CM.send_json
  rw [hact]
  simp

theorem truncate_spec (q : List Py.Val) :
    CM.truncate q = q.drop (q.length - 1000) ∧ (CM.truncate q).length ≤ 1000 := by
  unfold CM.truncate
  by_cases h1 : 1000 < q.length
  · rw [if_pos h1]
    refine ⟨rfl, ?_⟩
    rw [List.length_drop]
    omega
  · rw [if_neg h1]
    have h0 : q.length - 1000 = 0 := by omega
    rw [h0, List.drop_zero]
    exact ⟨rfl, by omega⟩

/-- C8: under every sequence of connect, associate_session, disconnect and
send_to_session (and send_json) operations from a fresh manager, every
socket recorded in `connection_sessions` belongs to its session's set in
`session_connections`, and every stored session set is non-empty. -/
theorem C8_connection_manager_invariant (ops : List CM.Op) :
    CM.Inv (CM.run ops) :=
  CM.inv_foldl CM.inv_initState ops

/-- C4: a send_to_session on a session with no connections appends the
message to that session's queue with no send attempted, and a send_json
with no active connections appends to the global queue; after either call
the affected queue keeps exactly the most recent entries, at most 1000 of
them. -/
theorem C4_offline_queue_truncation (st : CM.State) (s : String)
    (data gdata : Py.Val) (failing : Finset Nat)
    (hnone : st.sessionConnections s = none)
    (hact : st.active = []) :
    (CM.send_to_session st s data failing).2 = [] ∧
    (CM.send_to_session st s data failing).1.sessionMessageQueues s =
      (st.sessionMessageQueues s ++ [data]).drop
        ((st.sessionMessageQueues s ++ [data]).length - 1000) ∧
    ((CM.send_to_session st s data failing).1.sessionMessageQueues s).length ≤ 1000 ∧
    (CM.send_json st gdata).2 = [] ∧
    (CM.send_json st gdata).1.messageQueue =
      (st.messageQueue ++ [gdata]).drop ((st.messageQueue ++ [gdata]).length - 1000) ∧
    ((CM.send_json st gdata).1.messageQueue).length ≤ 1000 := by
  obtain ⟨ht1, ht2⟩ := truncate_spec (st.sessionMessageQueues s ++ [data])
  obtain ⟨hj1, hj2⟩ := truncate_spec (st.messageQueue ++ [gdata])
  rw [send_to_session_queued data failing hnone, send_json_queued gdata hact]
  refine ⟨rfl, ?_, ?_, rfl, hj1, hj2⟩
  · simp only [Function.update_same]
    exact ht1
  · simp only [Function.update_same]
    exact ht2

/-- Witness for C4 at a concrete state: the fresh manager, session "s",
null payloads. -/
theorem C4_offline_queue_truncation_witness :
    (CM.send_to_session CM.initState "s" Py.Val.vnull ∅).2 = [] ∧
    (CM.send_to_session CM.initState "s" Py.Val.vnull ∅).1.sessionMessageQueues "s" =
      (CM.initState.sessionMessageQueues "s" ++ [Py.Val.vnull]).drop
        ((CM.initState.sessionMessageQueues "s" ++ [Py.Val.vnull]).length - 1000) ∧
    ((CM.send_to_session CM.initState "s" Py.Val.vnull ∅).1.sessionMessageQueues "s").length ≤ 1000 ∧
    (CM.send_json CM.initState Py.Val.vnull).2 = [] ∧
    (CM.send_json CM.initState Py.Val.vnull).1.messageQueue =
      (CM.initState.messageQueue ++ [Py.Val.vnull]).drop
        ((CM.initState.messageQueue ++ [Py.Val.vnull]).length - 1000) ∧
    ((CM.send_json CM.initState Py.Val.vnull).1.messageQueue).length ≤ 1000 :=
  C4_offline_queue_truncation CM.initState "s" Py.Val.vnull Py.Val.vnull ∅ rfl rfl

theorem pyStrip_eq_empty_iff (s : String) :
    Py.pyStrip s = "" ↔ ∀ c ∈ s.data, Py.isPySpace c = true := by
  unfold Py.pyStrip
  constructor
  · intro h
    have hd : Py.stripChars s.data = [] := congrArg String.data h
    exact (Py.stripChars_eq_nil_iff s.data).mp hd
  · intro h
    have hd : Py.stripChars s.data = [] := (Py.stripChars_eq_nil_iff s.data).mpr h
    rw [hd]

/-- Did pydantic accept the step-7 request? -/
def step7Accepted (r : Runtime.Step7InvokeRequest) : Bool :=
  match Runtime.step7Validate r with
  | .ok _ => true
  | .error _ => false

/-- C3: a step7-invoke request is rejected by validation (before any SDK
call) iff the prompt exceeds 10000 characters, or is empty/whitespace-only,
or the runtime_session_id is shorter than 33 characters, or the
deployment_type is neither "code" nor "container"; requests inside all
bounds are accepted. -/
theorem C3_step7_validation (r : Runtime.Step7InvokeRequest)
    (outcome : Except String Py.Val) (t : String) :
    (step7Accepted r = false ↔
      (10000 < r.prompt.length ∨
       (∀ c ∈ r.prompt.data, Py.isPySpace c = true) ∨
       r.runtime_session_id.length < 33 ∨
       ¬(r.deployment_type = some "code" ∨ r.deployment_type = some "container"))) ∧
    ((Runtime.step7Endpoint r outcome t).1 = none ↔ step7Accepted r = false) := by
  constructor
  · rw [← pyStrip_eq_empty_iff r.prompt]
    unfold step7Accepted Runtime.step7Validate Runtime.validate_prompt
      Runtime.validate_runtime_session_id Runtime.validate_deployment_type
    by_cases h1 : 10000 < r.prompt.length <;>
      by_cases h2 : Py.pyStrip r.prompt = "" <;>
        by_cases h3 : r.runtime_session_id.length < 33 <;>
          by_cases h4 : (r.deployment_type = some "code" ∨
            r.deployment_type = some "container") <;>
            simp [h1, h2, h3, h4]
  · unfold Runtime.step7Endpoint step7Accepted
    cases hv : Runtime.step7Validate r <;> simp

/-- Witness for C3 at a concrete accepted request. -/
theorem C3_step7_validation_witness :
    (step7Accepted
        ⟨"sess", "arn:aws:x", "0123456789012345678901234567890123", "hello",
          some "code"⟩ = false ↔
      (10000 <
          (Runtime.Step7InvokeRequest.prompt
            ⟨"sess", "arn:aws:x", "0123456789012345678901234567890123", "hello",
              some "code"⟩).length ∨
       (∀ c ∈ (Runtime.Step7InvokeRequest.prompt
            ⟨"sess", "arn:aws:x", "0123456789012345678901234567890123", "hello",
              some "code"⟩).data, Py.isPySpace c = true) ∨
       (Runtime.Step7InvokeRequest.runtime_session_id
          ⟨"sess", "arn:aws:x", "0123456789012345678901234567890123", "hello",
            some "code"⟩).length < 33 ∨
       ¬(Runtime.Step7InvokeRequest.deployment_type
            ⟨"sess", "arn:aws:x", "0123456789012345678901234567890123", "hello",
              some "code"⟩ = some "code" ∨
         Runtime.Step7InvokeRequest.deployment_type
            ⟨"sess", "arn:aws:x", "0123456789012345678901234567890123", "hello",
              some "code"⟩ = some "container"))) ∧
    ((Runtime.step7Endpoint
        ⟨"sess", "arn:aws:x", "0123456789012345678901234567890123", "hello",
          some "code"⟩ (Except.ok Py.Val.vnull) "0.10s").1 = none ↔
      step7Accepted
        ⟨"sess", "arn:aws:x", "0123456789012345678901234567890123", "hello",
          some "code"⟩ = false) :=
  C3_step7_validation _ (Except.ok Py.Val.vnull) "0.10s"

/-- C5: for every accepted step7-invoke request the handler calls
invoke_agent_runtime with the request's ARN and session id, qualifier
DEFAULT and the payload serialized as {input: {prompt}} for container
deployments and {prompt} otherwise; a parsed SDK response is returned
unchanged under "response" in a status:success envelope, and an SDK
exception becomes an HTTP 500. -/
theorem C5_step7_invoke_args (r : Runtime.Step7InvokeRequest) (v : Py.Val)
    (t e : String) :
    (Runtime.step7_invoke_agent r (Except.ok v) t).1 =
      ⟨r.runtime_arn, r.runtime_session_id,
        (if r.deployment_type = some "container" then
           Py.dumps (.vdict [("input", .vdict [("prompt", .vstr r.prompt)])])
         else Py.dumps (.vdict [("prompt", .vstr r.prompt)])),
        "DEFAULT"⟩ ∧
    (Runtime.step7_invoke_agent r (Except.ok v) t).2 =
      .ok (.vdict [("status", .vstr "success"),
                   ("response", v),
                   ("execution_time", .vstr t),
                   ("prompt", .vstr r.prompt),
                   ("deployment_type",
                     match r.deployment_type with
                     | some dt => .vstr dt
                     | none => .vnull)]) ∧
    (Runtime.step7_invoke_agent r (Except.error e) t).1 =
      (Runtime.step7_invoke_agent r (Except.ok v) t).1 ∧
    (Runtime.step7_invoke_agent r (Except.error e) t).2 =
      .httpError 500 ("调用失败: " ++ e) :=
  ⟨rfl, rfl, rfl, rfl⟩

/-- C6: when delete_agent_runtime succeeds, the session's entry is removed
from runtime_sessions (even when the S3 delete fails — its outcome is
ignored) and a success envelope is returned; when it raises,
runtime_sessions is unchanged and an HTTP 500 carries the message. -/
theorem C6_step8_cleanup (sessions : List (String × Runtime.SessionData))
    (r : Runtime.Step8CleanupRequest) (s3out : Except String Unit) (e : String) :
    (Runtime.step8_cleanup_runtime sessions r (Except.ok ()) s3out).1 =
      sessions.filter (fun q => q.1 != r.session_id) ∧
    (Runtime.step8_cleanup_runtime sessions r (Except.ok ()) s3out).2.1 =
      .ok (.vdict [("status", .vstr "success"),
                   ("message", .vstr "Runtime 已删除"),
                   ("runtime_id", .vstr r.runtime_id)]) ∧
    Runtime.step8_cleanup_runtime sessions r (Except.error e) s3out =
      (sessions, .httpError 500 ("删除失败: " ++ e),
       [.deleteAgentRuntime r.runtime_id]) := by
  refine ⟨?_, ?_, rfl⟩
  · unfold Runtime.step8_cleanup_runtime
    cases hf : sessions.find? (fun p => p.1 == r.session_id) with
    | none =>
      dsimp only
      have hall : ∀ p ∈ sessions, (p.1 != r.session_id) = true := by
        intro p hp
        have := List.find?_eq_none.mp hf p hp
        simpa [bne] using this
      exact (List.filter_eq_self.mpr hall).symm
    | some p => rfl
  · unfold Runtime.step8_cleanup_runtime
    cases hf : sessions.find? (fun p => p.1 == r.session_id) <;> rfl

/-- C2 fails as stated: delete_memory catches the SDK exception but keys
the message (with a prefix) under "message", not "error". -/
theorem C2_counterexample :
    Py.dictGet (Ops.delete_memory "demo-memory" (Except.error "boom")) "success" =
      some (Py.Val.vbool false) ∧
    Py.dictGet (Ops.delete_memory "demo-memory" (Except.error "boom")) "message" =
      some (Py.Val.vstr "删除 Memory 失败: boom") ∧
    Py.dictGet (Ops.delete_memory "demo-memory" (Except.error "boom")) "error" = none :=
  ⟨rfl, rfl, rfl⟩

/-- C2 (amended): no uniform envelope exists; each operation catches the
exception of its wrapped SDK call, captures its message as a string, and
embeds it in an endpoint-specific failure shape — success:false with the
message under "error" (execute_agentcore_code), success:false with a
prefixed message under "message" (delete_memory), an HTTP 500 whose detail
is a fixed prefix plus the message (step6_check_status), status:"error"
with the message under "message" (the app.py browser endpoints), or a
final SSE event done:true with a prefixed message under "error" (the
step5 deploy stream, which also leaves runtime_sessions unchanged on
failure); in none of these does the exception propagate otherwise. -/
theorem C2_error_envelopes (mid e : String)
    (sessions : List (String × Runtime.SessionData))
    (sid an pp bkt : String) (create : Except String (String × String)) :
    Ops.execute_agentcore_code (Except.error e) =
      Py.Val.vdict [("success", Py.Val.vbool false), ("error", Py.Val.vstr e)] ∧
    Ops.delete_memory mid (Except.error e) =
      Py.Val.vdict [("success", Py.Val.vbool false),
                    ("message", Py.Val.vstr ("删除 Memory 失败: " ++ e))] ∧
    Runtime.step6_check_status (Except.error e) =
      Runtime.ApiResult.httpError 500 ("查询失败: " ++ e) ∧
    Ops.stop_agentcore_browser_endpoint (Except.error e) =
      Py.Val.vdict [("status", Py.Val.vstr "error"), ("message", Py.Val.vstr e)] ∧
    Runtime.deployError e =
      Py.Val.vdict [("done", Py.Val.vbool true),
                    ("error", Py.Val.vstr ("部署失败: " ++ e))] ∧
    (Runtime.step5_deploy_stream sessions sid an pp bkt true
        (Except.error e) create).1.getLast? = some (Runtime.deployError e) ∧
    (Runtime.step5_deploy_stream sessions sid an pp bkt true
        (Except.error e) create).2 = sessions ∧
    (Runtime.step5_deploy_stream sessions sid an pp bkt true
        (Except.ok ()) (Except.error e)).1.getLast? = some (Runtime.deployError e) ∧
    (Runtime.step5_deploy_stream sessions sid an pp bkt true
        (Except.ok ()) (Except.error e)).2 = sessions :=
  ⟨rfl, rfl, rfl, rfl, rfl, rfl, rfl, rfl, rfl⟩

/-- C9: _send_event frames its data as an `event:` line followed by the
serialized data (json.dumps with ensure_ascii disabled for dicts and
lists, str() otherwise) split on newlines with every piece prefixed by
`data: `, terminated by a blank line; the number of data lines is one plus
the number of newline characters in the serialized data. -/
theorem C9_send_event_format (et : String) (data : Py.Val) :
    Mem._send_event et data =
      "event: " ++ et ++ "\n" ++
        String.intercalate "\n"
          ((Py.splitNl (Mem.sendEventData data).data).map
            (fun l => "data: " ++ String.mk l)) ++ "\n\n" ∧
    ((Py.splitNl (Mem.sendEventData data).data).map
        (fun l => "data: " ++ String.mk l)).length =
      1 + (Mem.sendEventData data).data.count '\n' ∧
    (∀ fs, Mem.sendEventData (.vdict fs) = Py.dumpsWith false (.vdict fs)) ∧
    (∀ xs, Mem.sendEventData (.vlist xs) = Py.dumpsWith false (.vlist xs)) ∧
    (∀ s, Mem.sendEventData (.vstr s) = s) := by
  refine ⟨rfl, ?_, fun _ => rfl, fun _ => rfl, fun _ => rfl⟩
  rw [List.length_map, Py.splitNl_length]

/-- C10 (amended): every memory demo operation invoked while its required
manager field is still None returns — or, for the streaming variants,
yields as its final event — the success:false dict with message
"请先初始化 Memory Manager" and performs no AWS SDK call; the manager
fields are assigned only by initialize, whose full success sets both,
while an initialize failing at the LTM constructor still reports failure
yet has already set stm_manager. -/
theorem C10_manager_guards (api : Mem.MemApi) (b : Mem.DemoBody)
    (sb : Mem.StreamBody) (stm ltm e : String) :
    Mem.demo_stm_step1 { api with stm_manager := none } b = (Mem.notInitialized, []) ∧
    Mem.demo_stm_step2 { api with stm_manager := none } b = (Mem.notInitialized, []) ∧
    Mem.demo_ltm_step1 { api with ltm_manager := none } b = (Mem.notInitialized, []) ∧
    Mem.demo_ltm_step2 { api with ltm_manager := none } b = (Mem.notInitialized, []) ∧
    Mem.demo_combined { api with stm_manager := none } b = (Mem.notInitialized, []) ∧
    Mem.demo_combined { api with ltm_manager := none } b = (Mem.notInitialized, []) ∧
    ((Mem.demo_stm_step1_stream { api with stm_manager := none } sb).1.getLast? =
        some (.eresult Mem.notInitialized) ∧
      (Mem.demo_stm_step1_stream { api with stm_manager := none } sb).2 = []) ∧
    ((Mem.demo_stm_step2_stream { api with stm_manager := none } sb).1.getLast? =
        some (.eresult Mem.notInitialized) ∧
      (Mem.demo_stm_step2_stream { api with stm_manager := none } sb).2 = []) ∧
    ((Mem.demo_ltm_step1_stream { api with ltm_manager := none } sb).1.getLast? =
        some (.eresult Mem.notInitialized) ∧
      (Mem.demo_ltm_step1_stream { api with ltm_manager := none } sb).2 = []) ∧
    ((Mem.demo_ltm_step2_stream { api with ltm_manager := none } sb).1.getLast? =
        some (.eresult Mem.notInitialized) ∧
      (Mem.demo_ltm_step2_stream { api with ltm_manager := none } sb).2 = []) ∧
    ((Mem.demo_combined_stream { api with stm_manager := none } sb).1.getLast? =
        some (.eresult Mem.notInitialized) ∧
      (Mem.demo_combined_stream { api with stm_manager := none } sb).2 = []) ∧
    ((Mem.demo_combined_stream { api with ltm_manager := none } sb).1.getLast? =
        some (.eresult Mem.notInitialized) ∧
      (Mem.demo_combined_stream { api with ltm_manager := none } sb).2 = []) ∧
    (Mem.init_managers api (some stm) (some ltm)
        (Except.ok ()) (Except.ok ()) (Except.ok ()) (Except.ok ())).1.stm_manager =
      some stm ∧
    (Mem.init_managers api (some stm) (some ltm)
        (Except.ok ()) (Except.ok ()) (Except.ok ()) (Except.ok ())).1.ltm_manager =
      some ltm ∧
    Py.dictGet (Mem.init_managers api (some stm) (some ltm)
        (Except.ok ()) (Except.ok ()) (Except.ok ()) (Except.ok ())).2 "success" =
      some (.vbool true) ∧
    Py.dictGet (Mem.init_managers api (some stm) (some ltm)
        (Except.ok ()) (Except.ok ()) (Except.ok ()) (Except.error e)).2 "success" =
      some (.vbool false) ∧
    (Mem.init_managers api (some stm) (some ltm)
        (Except.ok ()) (Except.ok ()) (Except.ok ()) (Except.error e)).1.stm_manager =
      some stm := by
  refine ⟨rfl, rfl, rfl, rfl, rfl, ?_, ⟨rfl, rfl⟩, ⟨rfl, rfl⟩, ?_, ?_, ⟨rfl, rfl⟩, ?_,
    rfl, rfl, rfl, rfl, rfl⟩
  · simp [Mem.demo_combined]
  · exact ⟨rfl, rfl⟩
  · exact ⟨rfl, rfl⟩
  · constructor <;> simp [Mem.demo_combined_stream, Mem.streamNotInitialized]

/-- C10 fails as stated (the managers-only-set-by-successful-initialize
clause): an initialize whose LTM manager construction raises returns a
success:false dict yet leaves stm_manager non-None. -/
theorem C10_counterexample :
    Py.dictGet (Mem.init_managers ⟨none, none, none, none, false, false⟩
        (some "stm-mem-id") (some "ltm-mem-id")
        (Except.ok ()) (Except.ok ()) (Except.ok ()) (Except.error "boom")).2
      "success" = some (Py.Val.vbool false) ∧
    (Mem.init_managers ⟨none, none, none, none, false, false⟩
        (some "stm-mem-id") (some "ltm-mem-id")
        (Except.ok ()) (Except.ok ()) (Except.ok ()) (Except.error "boom")).1.stm_manager =
      some "stm-mem-id" :=
  ⟨rfl, rfl⟩

/-- C7: the step-2 mock stream yields exactly one data event per line of the
fixed 10-line script, each `⟨line, done := false⟩` after a 0.5 s delay,
followed by exactly one final event whose `done` is true and whose `output`
equals the newline-join of the same 10 lines in order; no AWS SDK call is
made. -/
theorem C7_step2_stream_spec :
    Runtime.step2OutputLines.length = 10 ∧
    Runtime.step2InitProjectStream.1.length = Runtime.step2OutputLines.length + 1 ∧
    Runtime.step2InitProjectStream.1.dropLast =
      Runtime.step2OutputLines.map (fun line =>
        ⟨500, .vdict [("line", .vstr line), ("done", .vbool false)]⟩) ∧
    (∃ fin, Runtime.step2InitProjectStream.1.getLast? = some fin ∧
      Py.dictGet fin.data "done" = some (.vbool true) ∧
      Py.dictGet fin.data "output" =
        some (.vstr (String.intercalate "\n" Runtime.step2OutputLines))) ∧
    Runtime.step2InitProjectStream.2 = [] := by
  refine ⟨rfl, rfl, rfl, ⟨_, rfl, rfl, rfl⟩, rfl⟩
